import Mathlib

/-!
Verification of the NIH RePORTER MCP server pagination-and-aggregation
engine (src/reporter/utils.py, models.py, tools.py), shallowly embedded.

JSON values are modelled by the inductive JVal; Python dicts are ordered
association lists (insertion order preserved, keys unique in practice);
Python exceptions are modelled by Option / Except; Python truthiness is
the function truthy.
-/

namespace Reporter

/-- A JSON value as produced by the upstream API and manipulated by the
Python code. Numbers are modelled as integers (the claims only touch
integer-valued fields). -/
inductive JVal where
  | jnull
  | jbool (b : Bool)
  | jint (n : Int)
  | jstr (s : String)
  | jarr (xs : List JVal)
  | jobj (fields : List (String × JVal))

open JVal

mutual

/-- Structural (Python ==) equality test on JSON values. -/
def beqV : JVal → JVal → Bool
  | .jnull, .jnull => true
  | .jbool x, .jbool y => x == y
  | .jint x, .jint y => x == y
  | .jstr x, .jstr y => x == y
  | .jarr xs, .jarr ys => beqL xs ys
  | .jobj fs, .jobj gs => beqO fs gs
  | _, _ => false

/-- Equality test on JSON arrays. -/
def beqL : List JVal → List JVal → Bool
  | [], [] => true
  | x :: xs, y :: ys => beqV x y && beqL xs ys
  | _, _ => false

/-- Equality test on JSON objects. -/
def beqO : List (String × JVal) → List (String × JVal) → Bool
  | [], [] => true
  | (k, v) :: fs, (l, w) :: gs => k == l && beqV v w && beqO fs gs
  | _, _ => false

end

/-- Python truthiness of a JSON value: None, False, 0, empty string,
empty list and empty dict are falsy; everything else is truthy. -/
def truthy : JVal → Bool
  | jnull => false
  | jbool b => b
  | jint n => n != 0
  | jstr s => s != ""
  | jarr xs => !xs.isEmpty
  | jobj fs => !fs.isEmpty

/-- Lookup of a key in an ordered dict, first occurrence
(Python d.get(k) and d[k] both read this; d[k] raising on a missing key
is modelled by the caller treating none as an exception). -/
def jlookup : List (String × JVal) → String → Option JVal
  | [], _ => none
  | (k, v) :: rest, key => if k = key then some v else jlookup rest key

/-- Python d[k] = v on an ordered dict: update the value in place if the
key exists (position preserved), else append at the end. -/
def dictSet : List (String × JVal) → String → JVal → List (String × JVal)
  | [], key, v => [(key, v)]
  | (k, w) :: rest, key, v =>
      if k = key then (k, v) :: rest else (k, w) :: dictSet rest key v

/-- Python del d[k]: remove the (first) binding of the key. -/
def dictDel : List (String × JVal) → String → List (String × JVal)
  | [], _ => []
  | (k, w) :: rest, key => if k = key then rest else (k, w) :: dictDel rest key

/-- Python x[k] where x may not be a dict: indexing a non-dict with a
string key, or a missing key, raises (none). -/
def pyIndex (v : JVal) (key : String) : Option JVal :=
  match v with
  | jobj fs => jlookup fs key
  | _ => none

/-! ## Response Normalizer (utils.py, clean_json) -/

/-- The organization step of clean_json on one project record:
if the organization value is truthy, set org_name and org_state from its
sub-fields (raising if either sub-field is missing or the value is not a
dict) and delete the organization key. -/
def cleanOrg (fs : List (String × JVal)) : Option (List (String × JVal)) :=
  match jlookup fs "organization" with
  | some org =>
      if truthy org then
        match pyIndex org "org_name", pyIndex org "org_state" with
        | some name, some st =>
            some (dictDel (dictSet (dictSet fs "org_name" name) "org_state" st)
              "organization")
        | _, _ => none
      else some fs
  | none => some fs

/-- The agency step of clean_json on one project record: if the
agency_ic_admin value is truthy, replace it by its abbreviation sub-field
(raising a TypeError / KeyError, i.e. none, when the value is not a dict
with that key). -/
def cleanAgency (fs : List (String × JVal)) : Option (List (String × JVal)) :=
  match jlookup fs "agency_ic_admin" with
  | some a =>
      if truthy a then
        match pyIndex a "abbreviation" with
        | some ab => some (dictSet fs "agency_ic_admin" ab)
        | none => none
      else some fs
  | none => some fs

/-- The principal-investigators step of clean_json on one project record:
if the value is truthy it must be a list of dicts each carrying full_name
(iterating anything else, or indexing a non-dict element, raises). -/
def cleanPIs (fs : List (String × JVal)) : Option (List (String × JVal)) :=
  match jlookup fs "principal_investigators" with
  | some v =>
      if truthy v then
        match v with
        | jarr pis =>
            match pis.mapM (fun pi => pyIndex pi "full_name") with
            | some names =>
                some (dictSet fs "principal_investigators" (jarr names))
            | none => none
        | _ => none
      else some fs
  | none => some fs

/-- clean_json restricted to one project record (the body of its loop). -/
def cleanProject (fs : List (String × JVal)) : Option (List (String × JVal)) :=
  (cleanOrg fs).bind (fun fs1 => (cleanAgency fs1).bind cleanPIs)

/-- clean_json (utils.py lines 6-34): iterate over response.get with the
results key (default empty list), flattening each record in place, and
return the mutated response. Iterating a truthy non-list results value, a
non-dict record, or a non-dict response raises (none). An empty string or
empty dict in the results slot iterates zero times in Python, leaving the
response unchanged. -/
def cleanJson (resp : JVal) : Option JVal :=
  match resp with
  | jobj fs =>
      match jlookup fs "results" with
      | some (jarr projects) =>
          match projects.mapM (fun p =>
              match p with
              | jobj pfs => (cleanProject pfs).map jobj
              | _ => none) with
          | some cleaned => some (jobj (dictSet fs "results" (jarr cleaned)))
          | none => none
      | some (jstr s) => if s = "" then some resp else none
      | some (jobj ofs) => if ofs.isEmpty then some resp else none
      | some _ => none
      | none => some resp
  | _ => none

/-- Truthiness check used to describe when a clean_json step is skipped:
the key is absent, or its value is falsy. -/
def falsyAt (fs : List (String × JVal)) (k : String) : Bool :=
  match jlookup fs k with
  | some v => !truthy v
  | none => true

/-- A raw record whose agency_ic_admin sub-object carries a non-empty
abbreviation, wrapped in a response, and its once-normalized form. -/
def c1RawResponse : JVal :=
  jobj [("results", jarr
    [jobj [("agency_ic_admin", jobj [("abbreviation", jstr "NIMH")])]])]

/-- The normalized form of c1RawResponse: the agency sub-object has been
flattened to the plain string of its abbreviation. -/
def c1OnceCleaned : JVal :=
  jobj [("results", jarr [jobj [("agency_ic_admin", jstr "NIMH")]])]

/-! ## Pager (utils.py, search_nih_reporter / paged_query /
get_initial_response / get_all_responses)

The transport (search_nih_reporter) is a collaborator: a function from
the page request (limit, offset; criteria and include_fields are fixed
for one fetch) to either an error (a transport failure or a non-2xx
status turned into an exception by raise_for_status) or the parsed JSON
body. The print calls in get_all_responses are observability only and
are not modelled. -/

/-- The accumulated result set: meta of the first page plus the
concatenation of the results of every page, as built by paged_query. -/
structure Acc where
  meta : JVal
  results : List JVal

/-- A page transport: limit and offset to response or failure. -/
def Upstream : Type := Int → Int → Except String JVal

/-- Python: is the parsed response body None. -/
def isNull : JVal → Bool
  | jnull => true
  | _ => false

/-- The results value extended onto the accumulator after clean_json has
succeeded: a list contributes its elements; an absent key (get default),
an empty string or an empty dict contribute nothing (iterating them adds
no element); no other shape survives clean_json. -/
def extendResults (cleaned : JVal) : List JVal :=
  match cleaned with
  | jobj fs =>
      match jlookup fs "results" with
      | some (jarr xs) => xs
      | _ => []
  | _ => []

/-- paged_query (utils.py lines 83-124): send the page request, fail if
the transport failed or the body is None, normalize with clean_json
(propagating its exceptions), read meta.total (KeyError when absent),
create the accumulator on the first call, and extend its results. -/
def pagedQuery (up : Upstream) (limit offset : Int) (acc : Option Acc) :
    Except String (JVal × Acc) :=
  match up limit offset with
  | .error e => .error ("NIH RePORTER API request failed: " ++ e)
  | .ok resp =>
      if isNull resp then
        .error "NIH RePORTER API request failed - no response received"
      else
        match cleanJson resp with
        | none => .error "TypeError raised by clean_json"
        | some cleaned =>
            match pyIndex cleaned "meta" with
            | none => .error "KeyError: meta"
            | some meta =>
                match pyIndex meta "total" with
                | none => .error "KeyError: total"
                | some total =>
                    let acc0 : Acc := match acc with
                      | none => { meta := meta, results := [] }
                      | some a => a
                    .ok (total,
                      { acc0 with results := acc0.results ++ extendResults cleaned })

/-- get_initial_response (utils.py lines 126-131): a single bounded page
request at offset 0. -/
def getInitialResponse (up : Upstream) (limit : Int) :
    Except String (JVal × Acc) :=
  pagedQuery up limit 0 none

/-- Python comparison offset + limit < total, where total is whatever
JSON value meta.total held: ints compare as ints, booleans as 0 or 1,
anything else raises a TypeError. -/
def pyLtInt (a : Int) (t : JVal) : Except String Bool :=
  match t with
  | jint n => .ok (decide (a < n))
  | jbool b => .ok (decide (a < (if b then 1 else 0)))
  | _ => .error "TypeError: comparison not supported"

/-- The while loop of get_all_responses, instrumented with the list of
offsets at which page requests have been issued. Fuel bounds the number
of iterations that can be observed; none means the loop was not over
within the given fuel (the Python loop simply keeps running). -/
def getAllLoop (up : Upstream) (limit : Int) :
    Nat → JVal → Int → Acc → List Int → Option (Except String (List Int × Acc))
  | 0, _, _, _, _ => none
  | fuel + 1, total, offset, acc, issued =>
      match pyLtInt (offset + limit) total with
      | .error e => some (.error e)
      | .ok false => some (.ok (issued, acc))
      | .ok true =>
          match pagedQuery up limit (offset + limit) (some acc) with
          | .error e => some (.error e)
          | .ok (total', acc') =>
              getAllLoop up limit fuel total' (offset + limit) acc'
                (issued ++ [offset + limit])

/-- get_all_responses (utils.py lines 133-150): initial page request at
offset 0, then the while loop advancing the offset by the fixed limit
while offset + limit < total (total re-read from each page). Returns the
offsets of the issued requests alongside the accumulated result set. -/
def getAllResponses (up : Upstream) (limit : Int) (fuel : Nat) :
    Option (Except String (List Int × Acc)) :=
  match pagedQuery up limit 0 none with
  | .error e => some (.error e)
  | .ok (total, acc) => getAllLoop up limit fuel total 0 acc [0]

/-! ## Criteria Model (models.py) -/

/-- The NIH agency enumeration (models.py lines 5-35), serialized by its short code. -/
inductive NIHAgency where
  | CLC
  | CSR
  | CIT
  | FIC
  | NCATS
  | NCCIH
  | NCI
  | NCRR
  | NEI
  | NHGRI
  | NHLBI
  | NIA
  | NIAAA
  | NIAID
  | NIAMS
  | NIBIB
  | NICHD
  | NIDA
  | NIDCD
  | NIDCR
  | NIDDK
  | NIEHS
  | NIGMS
  | NIH
  | NIMH
  | NIMHD
  | NINDS
  | NINR
  | NLM
  | OD

/-- The short code of an agency (the enum value in the source). -/
def NIHAgency.value : NIHAgency → String
  | CLC => "CLC"
  | CSR => "CSR"
  | CIT => "CIT"
  | FIC => "FIC"
  | NCATS => "NCATS"
  | NCCIH => "NCCIH"
  | NCI => "NCI"
  | NCRR => "NCRR"
  | NEI => "NEI"
  | NHGRI => "NHGRI"
  | NHLBI => "NHLBI"
  | NIA => "NIA"
  | NIAAA => "NIAAA"
  | NIAID => "NIAID"
  | NIAMS => "NIAMS"
  | NIBIB => "NIBIB"
  | NICHD => "NICHD"
  | NIDA => "NIDA"
  | NIDCD => "NIDCD"
  | NIDCR => "NIDCR"
  | NIDDK => "NIDDK"
  | NIEHS => "NIEHS"
  | NIGMS => "NIGMS"
  | NIH => "NIH"
  | NIMH => "NIMH"
  | NIMHD => "NIMHD"
  | NINDS => "NINDS"
  | NINR => "NINR"
  | NLM => "NLM"
  | OD => "OD"

/-- The organization state enumeration (models.py lines 168-227). -/
inductive StateCode where
  | AL
  | AK
  | AZ
  | AR
  | CA
  | CO
  | CT
  | DE
  | FL
  | GA
  | HI
  | ID
  | IL
  | IN
  | IA
  | KS
  | KY
  | LA
  | ME
  | MD
  | MA
  | MI
  | MN
  | MS
  | MO
  | MT
  | NE
  | NV
  | NH
  | NJ
  | NM
  | NY
  | NC
  | ND
  | OH
  | OK
  | OR
  | PA
  | RI
  | SC
  | SD
  | TN
  | TX
  | UT
  | VT
  | VA
  | WA
  | WV
  | WI
  | WY
  | DC
  | PR
  | VI
  | GU
  | AS
  | MP
  | FM
  | MH
  | PW

/-- The short code of a state (the enum value in the source). -/
def StateCode.value : StateCode → String
  | AL => "AL"
  | AK => "AK"
  | AZ => "AZ"
  | AR => "AR"
  | CA => "CA"
  | CO => "CO"
  | CT => "CT"
  | DE => "DE"
  | FL => "FL"
  | GA => "GA"
  | HI => "HI"
  | ID => "ID"
  | IL => "IL"
  | IN => "IN"
  | IA => "IA"
  | KS => "KS"
  | KY => "KY"
  | LA => "LA"
  | ME => "ME"
  | MD => "MD"
  | MA => "MA"
  | MI => "MI"
  | MN => "MN"
  | MS => "MS"
  | MO => "MO"
  | MT => "MT"
  | NE => "NE"
  | NV => "NV"
  | NH => "NH"
  | NJ => "NJ"
  | NM => "NM"
  | NY => "NY"
  | NC => "NC"
  | ND => "ND"
  | OH => "OH"
  | OK => "OK"
  | OR => "OR"
  | PA => "PA"
  | RI => "RI"
  | SC => "SC"
  | SD => "SD"
  | TN => "TN"
  | TX => "TX"
  | UT => "UT"
  | VT => "VT"
  | VA => "VA"
  | WA => "WA"
  | WV => "WV"
  | WI => "WI"
  | WY => "WY"
  | DC => "DC"
  | PR => "PR"
  | VI => "VI"
  | GU => "GU"
  | AS => "AS"
  | MP => "MP"
  | FM => "FM"
  | MH => "MH"
  | PW => "PW"

/-- The funding mechanism enumeration (models.py lines 229-242). -/
inductive FundingMechanism where
  | NON_SBIR_STTR_RESEARCH
  | SBIR_STTR_RESEARCH
  | RESEARCH_CENTERS
  | OTHER_RESEARCH
  | TRAINING_INDIVIDUAL
  | TRAINING_INSTITUTIONAL
  | CONSTRUCTION
  | NON_SBIR_STTR_CONTRACTS
  | SBIR_STTR_CONTRACTS
  | INTERAGENCY
  | INTRAMURAL
  | OTHER

/-- The short code of a funding mechanism (the enum value in the source). -/
def FundingMechanism.value : FundingMechanism → String
  | NON_SBIR_STTR_RESEARCH => "RP"
  | SBIR_STTR_RESEARCH => "SB"
  | RESEARCH_CENTERS => "RC"
  | OTHER_RESEARCH => "OR"
  | TRAINING_INDIVIDUAL => "TR"
  | TRAINING_INSTITUTIONAL => "TI"
  | CONSTRUCTION => "CO"
  | NON_SBIR_STTR_CONTRACTS => "NSRDC"
  | SBIR_STTR_CONTRACTS => "SRDC"
  | INTERAGENCY => "IAA"
  | INTRAMURAL => "IM"
  | OTHER => "Other"

/-- How to combine multiple search terms (models.py lines 79-84). -/
inductive SearchOperator where
  | ALL
  | OR
  | AND
  | ADVANCED

/-- The wire value of a search operator. -/
def SearchOperator.value : SearchOperator → String
  | ALL => "all"
  | OR => "or"
  | AND => "and"
  | ADVANCED => "advanced"

/-- Fields to search in (models.py lines 95-99). -/
inductive SearchField where
  | PROJECT_TITLE
  | TERMS
  | ABSTRACT

/-- The wire value of a search field. -/
def SearchField.value : SearchField → String
  | PROJECT_TITLE => "projecttitle"
  | TERMS => "terms"
  | ABSTRACT => "abstract"

/-- An element of the coerced search_field list: either a matched
SearchField member or a plain string left as-is by coerce_fields. -/
inductive SFItem where
  | field (f : SearchField)
  | str (s : String)

/-- A raw caller-supplied search_field element: a SearchField member or
a plain string (SearchField subclasses str, so a bare member is also a
string for the isinstance checks). -/
inductive SFRaw where
  | rawField (f : SearchField)
  | rawStr (s : String)

/-- Caller input for search_field: a single value or a list of values. -/
inductive SFInput where
  | single (x : SFRaw)
  | list (xs : List SFRaw)

/-- Python str.lower() on the field names in scope (ASCII case map). -/
def pyLower (s : String) : String :=
  String.mk (s.data.map Char.toLower)

/-- The inner matching step of coerce_fields (models.py lines 128-145):
match a lowercased string against the enum values, leaving it as a plain
string when nothing matches; enum members pass through. -/
def coerceOne : SFRaw → SFItem
  | SFRaw.rawField f => SFItem.field f
  | SFRaw.rawStr s =>
      let l := pyLower s
      if l = "projecttitle" then SFItem.field SearchField.PROJECT_TITLE
      else if l = "terms" then SFItem.field SearchField.TERMS
      else if l = "abstract" then SFItem.field SearchField.ABSTRACT
      else SFItem.str s

/-- coerce_fields (models.py lines 123-146): a single string (including
a bare SearchField member, which is a str instance) becomes a one-element
list; a list is coerced element-wise. The result is always a list. -/
def coerceFields : SFInput → List SFItem
  | SFInput.single x => [coerceOne x]
  | SFInput.list xs => xs.map coerceOne

/-- The value stored in AdvancedTextSearch.search_field. Validation only
ever produces the list form; the other forms exist because
to_api_criteria handles them (models.py lines 336-344). -/
inductive SFStored where
  | list (xs : List SFItem)
  | fieldOnly (f : SearchField)
  | other (s : String)

/-- The element serialization inside the join: s.value for an enum
member, str(s) for anything else. -/
def sfItemStr : SFItem → String
  | SFItem.field f => f.value
  | SFItem.str s => s

/-- The search_field normalization of to_api_criteria (models.py lines
335-344): a list joins the element serializations with a comma and a
space; a bare SearchField serializes to its value; anything else is
str(sf). -/
def serializeSearchField : SFStored → String
  | SFStored.list xs => String.intercalate ", " (xs.map sfItemStr)
  | SFStored.fieldOnly f => f.value
  | SFStored.other s => s

/-- The default search_field value (models.py line 115): project title,
abstract, indexed terms, in that order. -/
def defaultSearchField : SFStored :=
  SFStored.list [SFItem.field SearchField.PROJECT_TITLE,
    SFItem.field SearchField.ABSTRACT, SFItem.field SearchField.TERMS]

/-- AdvancedTextSearch (models.py lines 109-121): operator defaults to
AND, search_field defaults to the project-title/abstract/terms list. -/
structure AdvancedTextSearch where
  operator : SearchOperator := SearchOperator.AND
  search_field : SFStored := defaultSearchField
  search_text : String

/-- Validated construction of AdvancedTextSearch from caller input:
omitted fields take the declared defaults, and a supplied search_field
goes through coerce_fields (always yielding the list form). -/
def mkAdvancedTextSearch (text : String) (fields : Option SFInput)
    (op : Option SearchOperator) : AdvancedTextSearch :=
  { operator := op.getD SearchOperator.AND
    search_field := match fields with
      | some inp => SFStored.list (coerceFields inp)
      | none => defaultSearchField
    search_text := text }

/-- The whitespace set stripped by Python str.strip (ASCII range). -/
def isPySpace (c : Char) : Bool :=
  c = ' ' || c = '\t' || c = '\n' || c = '\r' || c = '\x0b' || c = '\x0c'

/-- Python str.strip(): remove leading and trailing whitespace. -/
def pyStrip (s : String) : String :=
  String.mk (((s.data.dropWhile isPySpace).reverse.dropWhile isPySpace).reverse)

/-- Python str.upper() on the identifiers in scope (ASCII case map). -/
def pyUpper (s : String) : String :=
  String.mk (s.data.map Char.toUpper)

/-- A validated project identifier (models.py lines 148-166). -/
structure ProjectNum where
  project_num : String

/-- The validate_project_num field validator (models.py lines 156-166):
strip whitespace, reject the empty result, normalize to uppercase. -/
def validateProjectNum (v : String) : Except String String :=
  let v := pyStrip v
  if v = "" then Except.error "Project number cannot be empty"
  else Except.ok (pyUpper v)

/-- Pydantic construction of ProjectNum: the min_length 1 constraint on
the raw input, then the validator. -/
def mkProjectNum (raw : String) : Except String ProjectNum :=
  if raw.length < 1 then Except.error "String should have at least 1 character"
  else (validateProjectNum raw).map (fun s => { project_num := s })

/-- SearchParams (models.py lines 313-324): all filters optional; the
agencies filter defaults to the single NIH agency. -/
structure SearchParams where
  advanced_text_search : Option AdvancedTextSearch := none
  years : Option (List Int) := none
  agencies : Option (List NIHAgency) := some [NIHAgency.NIH]
  organizations : Option (List String) := none
  pi_name : Option String := none
  project_nums : Option (List ProjectNum) := none
  org_states : Option (List StateCode) := none
  opportunity_numbers : Option (List String) := none
  activity_codes : Option (List String) := none
  funding_mechanisms : Option (List FundingMechanism) := none

/-- The advanced_text_search block of to_api_criteria (models.py lines
330-350): present model instances are always truthy. -/
def critATS (p : SearchParams) : List (String × JVal) :=
  match p.advanced_text_search with
  | some ats =>
      [("advanced_text_search", jobj
        [("search_text", jstr ats.search_text),
         ("search_field", jstr (serializeSearchField ats.search_field)),
         ("operator", jstr ats.operator.value)])]
  | none => []

/-- The fiscal_years block (models.py lines 353-354): emitted only when
the years list is truthy (set and non-empty). -/
def critYears (p : SearchParams) : List (String × JVal) :=
  match p.years with
  | some ys => if ys.isEmpty then [] else [("fiscal_years", jarr (ys.map jint))]
  | none => []

/-- The agencies block (models.py lines 355-356), serialized by short
code. -/
def critAgencies (p : SearchParams) : List (String × JVal) :=
  match p.agencies with
  | some ags =>
      if ags.isEmpty then [] else
        [("agencies", jarr (ags.map (fun a => jstr a.value)))]
  | none => []

/-- The org_names block (models.py lines 357-358). -/
def critOrgs (p : SearchParams) : List (String × JVal) :=
  match p.organizations with
  | some os => if os.isEmpty then [] else [("org_names", jarr (os.map jstr))]
  | none => []

/-- The pi_names block (models.py lines 359-360): a single any-name
criterion; an empty string is falsy and omitted. -/
def critPI (p : SearchParams) : List (String × JVal) :=
  match p.pi_name with
  | some n =>
      if n = "" then [] else [("pi_names", jarr [jobj [("any_name", jstr n)]])]
  | none => []

/-- The project_nums block (models.py lines 361-362): a plain list of
the validated identifier strings. -/
def critProjectNums (p : SearchParams) : List (String × JVal) :=
  match p.project_nums with
  | some ps =>
      if ps.isEmpty then [] else
        [("project_nums", jarr (ps.map (fun a => jstr a.project_num)))]
  | none => []

/-- The org_states block (models.py lines 363-364). -/
def critStates (p : SearchParams) : List (String × JVal) :=
  match p.org_states with
  | some ss =>
      if ss.isEmpty then [] else
        [("org_states", jarr (ss.map (fun a => jstr a.value)))]
  | none => []

/-- The opportunity_numbers block (models.py lines 365-366). -/
def critOpps (p : SearchParams) : List (String × JVal) :=
  match p.opportunity_numbers with
  | some os =>
      if os.isEmpty then [] else [("opportunity_numbers", jarr (os.map jstr))]
  | none => []

/-- The activity_codes block (models.py lines 367-368). -/
def critActivities (p : SearchParams) : List (String × JVal) :=
  match p.activity_codes with
  | some cs =>
      if cs.isEmpty then [] else [("activity_codes", jarr (cs.map jstr))]
  | none => []

/-- The funding_mechanisms block (models.py lines 369-370). -/
def critFM (p : SearchParams) : List (String × JVal) :=
  match p.funding_mechanisms with
  | some ms =>
      if ms.isEmpty then [] else
        [("funding_mechanisms", jarr (ms.map (fun a => jstr a.value)))]
  | none => []

/-- to_api_criteria (models.py lines 326-372): build the criteria dict
in source order, adding a key only when the field is truthy (a None
field, an empty list, and an empty pi_name string are all falsy and are
omitted; a present model instance for advanced_text_search is always
truthy). -/
def toApiCriteria (p : SearchParams) : List (String × JVal) :=
  critATS p ++ critYears p ++ critAgencies p ++ critOrgs p ++ critPI p ++
    critProjectNums p ++ critStates p ++ critOpps p ++ critActivities p ++
    critFM p

/-! ## Distribution Aggregator (utils.py, get_project_distributions) and
the tool surface that uses it (tools.py) -/

/-- The per-record projection of one frequency generator
(r.get(key) for dict records with truthy value, else skipped). -/
def distProj (key : String) (r : JVal) : Option JVal :=
  match r with
  | jobj fs =>
      match jlookup fs key with
      | some v => if truthy v then some v else none
      | none => none
  | _ => none

/-- The values one frequency Counter is built from: for each record that
is a dict whose value at the key is truthy, the value (in record order).
The Counter multiplicity of a value is countJ of this list. -/
def distValues (results : List JVal) (key : String) : List JVal :=
  results.filterMap (distProj key)

/-- Multiplicity of a value in a list (Counter counts by Python ==). -/
def countJ (xs : List JVal) (v : JVal) : Nat :=
  (xs.filter (fun x => beqV x v)).length

/-- The per-record projection of the active-status generator. -/
def activeProj (r : JVal) : Option String :=
  match r with
  | jobj fs =>
      match jlookup fs "is_active" with
      | some v =>
          if isNull v then none
          else some (if truthy v then "Active" else "Inactive")
      | none => none
  | _ => none

/-- The labels the active-status Counter is built from: records that are
dicts whose is_active value is present and not None, labelled Active
when the value is truthy and Inactive otherwise. -/
def activeLabels (results : List JVal) : List String :=
  results.filterMap activeProj

/-- The per-record projection of the project_ids extraction. -/
def projectIdProj (r : JVal) : Option JVal :=
  match r with
  | jobj fs =>
      match jlookup fs "project_num" with
      | some v => if truthy v then some (jobj [("project_num", v)]) else none
      | none => none
  | _ => none

/-- The project_ids extraction (utils.py lines 174-177): one singleton
dict per record that is a dict with a truthy project_num. -/
def projectIdEntries (results : List JVal) : List JVal :=
  results.filterMap projectIdProj

/-- The per-record projection of the award_amounts extraction. -/
def awardProj (r : JVal) : Option JVal :=
  match r with
  | jobj fs =>
      match jlookup fs "award_amount" with
      | some v => if isNull v then none else some v
      | none => none
  | _ => none

/-- The award_amounts extraction (utils.py lines 225-229): values of
award_amount over dict records, kept when present and not None. -/
def awardAmounts (results : List JVal) : List JVal :=
  results.filterMap awardProj

/-- Award amount statistics (utils.py lines 231-246). The average is
kept exact as a rational. -/
structure AwardStats where
  total : Int
  average : Rat
  min : Int
  max : Int
  count : Nat

/-- A Python numeric value for sum / min / max: ints are ints, booleans
count as 0 or 1; anything else raises a TypeError in sum. -/
def asNum : JVal → Option Int
  | jint n => some n
  | jbool b => some (if b then 1 else 0)
  | _ => none

/-- The award-amount statistics block: the empty list yields all-zero
statistics with count zero; a non-empty list is summed, averaged and
given min and max (raising, none, when an amount is not numeric). -/
def awardStats (amounts : List JVal) : Option AwardStats :=
  if amounts.isEmpty then
    some { total := 0, average := 0, min := 0, max := 0, count := 0 }
  else
    match amounts.mapM asNum with
    | some [] => none
    | some (n :: rest) =>
        some { total := (n :: rest).sum
               average := ((n :: rest).sum : Int) / ((n :: rest).length : Rat)
               min := rest.foldl Min.min n
               max := rest.foldl Max.max n
               count := (n :: rest).length }
    | none => none

/-- The aggregator output: each frequency table is represented by the
list of values its Counter is built from. -/
structure Distributions where
  project_ids : List JVal
  year_values : List JVal
  institute_values : List JVal
  activity_code_values : List JVal
  organization_values : List JVal
  funding_mechanism_values : List JVal
  active_status_values : List String
  award_amount_stats : AwardStats

/-- get_project_distributions (utils.py lines 152-257) on the
accumulated result set: skip non-dict records, build each frequency
table over truthy values (is_active over non-None values), and compute
award statistics; none models the TypeError raised by sum on a
non-numeric award amount. -/
def getProjectDistributions (allResults : Acc) : Option Distributions :=
  let results := allResults.results
  match awardStats (awardAmounts results) with
  | none => none
  | some stats =>
      some { project_ids := projectIdEntries results
             year_values := distValues results "fiscal_year"
             institute_values := distValues results "agency_ic_admin"
             activity_code_values := distValues results "activity_code"
             organization_values := distValues results "org_name"
             funding_mechanism_values := distValues results "funding_mechanism"
             active_status_values := activeLabels results
             award_amount_stats := stats }

/-- get_search_summary (tools.py lines 108-125) reports total_projects
as the length of the project_ids list of the aggregator, computed over
the exhaustively fetched accumulated result set. -/
def getSearchSummaryTotal (acc : Acc) : Option Nat :=
  (getProjectDistributions acc).map (fun d => d.project_ids.length)

/-- search_projects (tools.py lines 47-56) reports total_projects as the
meta.total value returned by the initial bounded page request. -/
def searchProjectsTotal (up : Upstream) : Except String JVal :=
  (getInitialResponse up 500).map Prod.fst

/-- get_project_information (tools.py lines 203-207): the SearchParams
built from the project identifiers of the caller alone; every other field
keeps its declared default, including the default agency filter. -/
def getProjectInformationParams (pns : List ProjectNum) : SearchParams :=
  { project_nums := some pns }

/-- The criteria mapping get_project_information sends upstream. -/
def getProjectInformationCriteria (pns : List ProjectNum) : List (String × JVal) :=
  toApiCriteria (getProjectInformationParams pns)

/-! ## Concrete scenarios and spec-side predicates used by the claims -/

/-- An upstream page source whose every page reports total 1200 and
carries an empty results list. -/
def c2EmptyPagesUpstream : Upstream := fun _ _ =>
  Except.ok (jobj [("meta", jobj [("total", jint 1200)]), ("results", jarr [])])

/-- The page of the simulated 1200-record upstream at an offset: the
full page size 500, or the remainder for the last page. -/
def simPage (offset : Int) : List JVal :=
  List.replicate (min 500 (1200 - offset)).toNat (jobj [])

/-- A simulated upstream reporting total 1200 on every page, each page
carrying its full complement of records. -/
def c2SimUpstream : Upstream := fun _ offset =>
  Except.ok (jobj [("meta", jobj [("total", jint 1200)]),
    ("results", jarr (simPage offset))])

/-- The accumulated result set the exhaustive fetch builds over the
simulated 1200-record upstream. -/
def c2SimAcc : Acc :=
  { meta := jobj [("total", jint 1200)]
    results := simPage 0 ++ simPage 500 ++ simPage 1000 }

/-- A page request that went through completely: the transport returned
a body that is not None, clean_json accepted it, and meta.total is
present. pagedQuery succeeds exactly on such pages. -/
def pageOk (up : Upstream) (limit offset : Int) : Prop :=
  ∃ resp, up limit offset = Except.ok resp ∧ isNull resp = false ∧
    ∃ cleaned, cleanJson resp = some cleaned ∧
      ∃ meta, pyIndex cleaned "meta" = some meta ∧
        ∃ total, pyIndex meta "total" = some total

/-- A single-page upstream whose one page is well-formed and reports
total 0. -/
def c3GoodUpstream : Upstream := fun _ _ =>
  Except.ok (jobj [("meta", jobj [("total", jint 0)]), ("results", jarr [])])

/-- Modelled from the spec words, for the refinement check of the
criteria mapping: a key is expected exactly when the corresponding
field is set and non-empty. -/
def specKeyExpected (p : SearchParams) (k : String) : Bool :=
  if k = "advanced_text_search" then p.advanced_text_search.isSome
  else if k = "fiscal_years" then
    (match p.years with | some xs => !xs.isEmpty | none => false)
  else if k = "agencies" then
    (match p.agencies with | some xs => !xs.isEmpty | none => false)
  else if k = "org_names" then
    (match p.organizations with | some xs => !xs.isEmpty | none => false)
  else if k = "pi_names" then
    (match p.pi_name with | some n => n != "" | none => false)
  else if k = "project_nums" then
    (match p.project_nums with | some xs => !xs.isEmpty | none => false)
  else if k = "org_states" then
    (match p.org_states with | some xs => !xs.isEmpty | none => false)
  else if k = "opportunity_numbers" then
    (match p.opportunity_numbers with | some xs => !xs.isEmpty | none => false)
  else if k = "activity_codes" then
    (match p.activity_codes with | some xs => !xs.isEmpty | none => false)
  else if k = "funding_mechanisms" then
    (match p.funding_mechanisms with | some xs => !xs.isEmpty | none => false)
  else false

/-- The SearchParams whose advanced text search was supplied the fields
title and abstract as a list of plain strings. -/
def c5Params : SearchParams :=
  { advanced_text_search := some (mkAdvancedTextSearch "cancer"
      (some (SFInput.list [SFRaw.rawStr "title", SFRaw.rawStr "abstract"]))
      none) }

/-- Multiplicity of a label in a list of strings. -/
def countS (xs : List String) (v : String) : Nat :=
  (xs.filter (fun x => x == v)).length

/-- The records a frequency bucket counts: dict records whose value at
the key is truthy and equal to the bucket value. -/
def inBucket (key : String) (v : JVal) (r : JVal) : Bool :=
  match r with
  | jobj fs =>
      match jlookup fs key with
      | some w => truthy w && beqV w v
      | none => false
  | _ => false

/-- The records one active-status bucket counts: dict records whose
is_active value is present, not None, and of the wanted truthiness. -/
def activeRecord (want : Bool) (r : JVal) : Bool :=
  match r with
  | jobj fs =>
      match jlookup fs "is_active" with
      | some w => !isNull w && (truthy w == want)
      | none => false
  | _ => false

/-- Four records with fiscal years 2022, 2022, 2023 and null. -/
def c8Example : List JVal :=
  [jobj [("fiscal_year", jint 2022)], jobj [("fiscal_year", jint 2022)],
   jobj [("fiscal_year", jint 2023)], jobj [("fiscal_year", jnull)]]

/-- A well-formed record for get_search_summary counting purposes: a
dict with a truthy project_num. -/
def goodRecord : JVal → Bool
  | jobj fs =>
      match jlookup fs "project_num" with
      | some v => truthy v
      | none => false
  | _ => false

/-! ## Shared lemmas -/

mutual

theorem beqV_iff : ∀ (a b : JVal), beqV a b = true ↔ a = b
  | jnull, b => by cases b <;> simp [beqV]
  | jbool x, b => by cases b <;> simp [beqV]
  | jint x, b => by cases b <;> simp [beqV]
  | jstr x, b => by cases b <;> simp [beqV]
  | jarr xs, b => by cases b <;> simp [beqV, beqL_iff xs]
  | jobj fs, b => by cases b <;> simp [beqV, beqO_iff fs]

theorem beqL_iff : ∀ (a b : List JVal), beqL a b = true ↔ a = b
  | [], b => by cases b <;> simp [beqL]
  | x :: xs, [] => by simp [beqL]
  | x :: xs, y :: ys => by simp [beqL, beqV_iff x y, beqL_iff xs ys]

theorem beqO_iff : ∀ (a b : List (String × JVal)), beqO a b = true ↔ a = b
  | [], b => by cases b <;> simp [beqO]
  | (k, v) :: fs, [] => by simp [beqO]
  | (k, v) :: fs, (l, w) :: gs => by
      simp [beqO, beqV_iff v w, beqO_iff fs gs, Prod.ext_iff, and_assoc]

end

theorem jlookup_dictSet_ne (fs : List (String × JVal)) (k k' : String)
    (v : JVal) (h : k' ≠ k) : jlookup (dictSet fs k v) k' = jlookup fs k' := by
  induction fs with
  | nil => simp [dictSet, jlookup, Ne.symm h]
  | cons hd tl ih =>
      obtain ⟨k0, v0⟩ := hd
      by_cases hk : k0 = k
      · subst hk
        simp [dictSet, jlookup, Ne.symm h]
      · simp only [dictSet, if_neg hk, jlookup]
        by_cases hk' : k0 = k' <;> simp [hk', ih]

theorem jlookup_dictDel_ne (fs : List (String × JVal)) (k k' : String)
    (h : k' ≠ k) : jlookup (dictDel fs k) k' = jlookup fs k' := by
  induction fs with
  | nil => simp [dictDel]
  | cons hd tl ih =>
      obtain ⟨k0, v0⟩ := hd
      by_cases hk : k0 = k
      · subst hk
        simp [dictDel, jlookup, Ne.symm h]
      · simp only [dictDel, if_neg hk, jlookup]
        by_cases hk' : k0 = k' <;> simp [hk', ih]

theorem truthy_jstr (s : String) : truthy (jstr s) = true ↔ s ≠ "" := by
  simp [truthy]

/-! ## Claim C1 -/

/-- Claim C1 counterexample: clean_json is not idempotent. Flattening a
record whose agency_ic_admin sub-object has a non-empty abbreviation
succeeds, but applying clean_json to the flattened output raises a
TypeError (string indexed with a string key), so applying it twice does
not yield the result of applying it once, and re-applying it to an
already-normalized record fails. -/
theorem clean_json_reapply_fails_cex :
    cleanJson c1RawResponse = some c1OnceCleaned ∧
    cleanJson c1OnceCleaned = none :=
  ⟨rfl, rfl⟩

/-- Claim C1 amended: clean_json is a pure function of the record, and
re-applying it is a no-op exactly on records in which the organization,
agency_ic_admin and principal_investigators values are all absent or
falsy; on any record whose agency_ic_admin holds a non-empty string
(as after one normalization pass) re-application raises instead. -/
theorem clean_json_idempotent_amended :
    (∀ fs : List (String × JVal),
        falsyAt fs "organization" = true →
        falsyAt fs "agency_ic_admin" = true →
        falsyAt fs "principal_investigators" = true →
        cleanProject fs = some fs) ∧
    (∀ (fs : List (String × JVal)) (s : String),
        jlookup fs "agency_ic_admin" = some (jstr s) → s ≠ "" →
        cleanProject fs = none) := by
  constructor
  · intro fs h1 h2 h3
    have ho : cleanOrg fs = some fs := by
      unfold cleanOrg
      cases horg : jlookup fs "organization" with
      | none => rfl
      | some v =>
          simp [falsyAt, horg] at h1
          simp [h1]
    have ha : cleanAgency fs = some fs := by
      unfold cleanAgency
      cases hag : jlookup fs "agency_ic_admin" with
      | none => rfl
      | some v =>
          simp [falsyAt, hag] at h2
          simp [h2]
    have hp : cleanPIs fs = some fs := by
      unfold cleanPIs
      cases hpi : jlookup fs "principal_investigators" with
      | none => rfl
      | some v =>
          simp [falsyAt, hpi] at h3
          simp [h3]
    simp [cleanProject, ho, ha, hp]
  · intro fs s hl hs
    have hagency : ∀ gs : List (String × JVal),
        jlookup gs "agency_ic_admin" = some (jstr s) → cleanAgency gs = none := by
      intro gs hg
      unfold cleanAgency
      rw [hg]
      simp [truthy, pyIndex, hs]
    unfold cleanProject
    unfold cleanOrg
    cases horg : jlookup fs "organization" with
    | none => simp [hagency fs hl]
    | some org =>
        by_cases ht : truthy org
        · simp only [ht, if_true]
          cases hn : pyIndex org "org_name" with
          | none => simp
          | some name =>
              cases hst : pyIndex org "org_state" with
              | none => simp
              | some st =>
                  simp only [Option.bind_some]
                  have hpres : jlookup (dictDel (dictSet (dictSet fs "org_name" name)
                      "org_state" st) "organization") "agency_ic_admin" =
                      some (jstr s) := by
                    rw [jlookup_dictDel_ne _ _ _ (by decide),
                        jlookup_dictSet_ne _ _ _ _ (by decide),
                        jlookup_dictSet_ne _ _ _ _ (by decide)]
                    exact hl
                  simp [hagency _ hpres]
        · simp [ht, hagency fs hl]

/-- Witness for the amended C1 theorem: a record with only a flat
org_name is left unchanged, and a record whose agency_ic_admin is the
non-empty string NIMH makes re-application raise. -/
theorem clean_json_idempotent_amended_witness :
    cleanProject [("org_name", jstr "MIT")] = some [("org_name", jstr "MIT")] ∧
    cleanProject [("agency_ic_admin", jstr "NIMH")] = none :=
  ⟨clean_json_idempotent_amended.1 _ rfl rfl rfl,
   clean_json_idempotent_amended.2 _ "NIMH" rfl (by decide)⟩

theorem pyUpper_ne_empty : ∀ (s : String), s ≠ "" → pyUpper s ≠ ""
  | ⟨[]⟩, h => absurd rfl h
  | ⟨c :: cs⟩, _ => by
      intro he
      have h2 : (c.toUpper :: cs.map Char.toUpper) = ([] : List Char) :=
        congrArg String.data he
      simp at h2

/-! ## Claim C5 -/

/-- Claim C5: a free-text search serializes its field selector to one
comma-separated string (a single supplied field becomes a one-element
list first), preserving the order the caller gave; the caller-supplied
list of fields title and abstract serializes to the string
"title, abstract" in the criteria output; when unspecified the operator
defaults to logical AND (wire value "and") and the field set defaults to
project title, abstract and indexed terms. -/
theorem text_search_field_serialization :
    serializeSearchField (SFStored.list (coerceFields (SFInput.list
        [SFRaw.rawStr "title", SFRaw.rawStr "abstract"]))) = "title, abstract" ∧
    toApiCriteria c5Params =
      [("advanced_text_search", jobj
         [("search_text", jstr "cancer"),
          ("search_field", jstr "title, abstract"),
          ("operator", jstr "and")]),
       ("agencies", jarr [jstr "NIH"])] ∧
    (∀ xs : List SFRaw,
        serializeSearchField (SFStored.list (coerceFields (SFInput.list xs))) =
          String.intercalate ", " (xs.map (fun x => sfItemStr (coerceOne x)))) ∧
    (∀ x : SFRaw, coerceFields (SFInput.single x) = [coerceOne x]) ∧
    (mkAdvancedTextSearch "cancer" none none).operator = SearchOperator.AND ∧
    SearchOperator.AND.value = "and" ∧
    (mkAdvancedTextSearch "cancer" none none).search_field = defaultSearchField ∧
    serializeSearchField defaultSearchField = "projecttitle, abstract, terms" := by
  refine ⟨rfl, rfl, ?_, fun x => rfl, rfl, rfl, rfl, rfl⟩
  intro xs
  simp [serializeSearchField, coerceFields, List.map_map, Function.comp_def]

/-! ## Claim C6 -/

/-- Claim C6: ProjectNum construction trims surrounding whitespace and
uppercases the identifier, rejecting exactly the inputs that are empty
after trimming; every accepted identifier is non-empty, and the wire
payload lists exactly the validated identifier strings. -/
theorem project_num_normalization :
    validateProjectNum " 1r01md013338-01 " = Except.ok "1R01MD013338-01" ∧
    validateProjectNum "   " = Except.error "Project number cannot be empty" ∧
    mkProjectNum "   " = Except.error "Project number cannot be empty" ∧
    (∀ (raw : String) (pn : ProjectNum), mkProjectNum raw = Except.ok pn →
        pn.project_num = pyUpper (pyStrip raw) ∧ pn.project_num ≠ "") ∧
    (∀ raw : String, pyStrip raw = "" → raw.length ≥ 1 →
        mkProjectNum raw = Except.error "Project number cannot be empty") ∧
    (∀ pns : List ProjectNum, pns ≠ [] →
        jlookup (toApiCriteria { project_nums := some pns }) "project_nums" =
          some (jarr (pns.map (fun a => jstr a.project_num)))) := by
  refine ⟨rfl, rfl, rfl, ?_, ?_, ?_⟩
  · intro raw pn h
    unfold mkProjectNum validateProjectNum at h
    by_cases hl : raw.length < 1
    · simp [hl] at h
    · simp only [hl, if_false] at h
      by_cases he : pyStrip raw = ""
      · simp [he, Except.map] at h
      · simp only [he, if_false, Except.map] at h
        cases h
        exact ⟨rfl, pyUpper_ne_empty _ he⟩
  · intro raw he hl
    unfold mkProjectNum validateProjectNum
    have : ¬raw.length < 1 := by omega
    simp [this, he, Except.map]
  · intro pns hne
    cases pns with
    | nil => exact absurd rfl hne
    | cons p ps =>
        simp [toApiCriteria, critATS, critYears, critAgencies, critOrgs,
          critPI, critProjectNums, critStates, critOpps, critActivities,
          critFM, jlookup, List.isEmpty]

/-- Witness for the C6 theorem: the identifier a normalizes to A and is
accepted non-empty; a one-space raw input is rejected; and a singleton
validated identifier list appears verbatim in the criteria. -/
theorem project_num_normalization_witness :
    ((ProjectNum.mk "A").project_num = pyUpper (pyStrip "a") ∧
      (ProjectNum.mk "A").project_num ≠ "") ∧
    mkProjectNum " " = Except.error "Project number cannot be empty" ∧
    jlookup (toApiCriteria { project_nums := some [ProjectNum.mk "X"] })
        "project_nums" = some (jarr [jstr "X"]) :=
  ⟨project_num_normalization.2.2.2.1 "a" (ProjectNum.mk "A") rfl,
   project_num_normalization.2.2.2.2.1 " " rfl (by decide),
   project_num_normalization.2.2.2.2.2 [ProjectNum.mk "X"] (by simp)⟩

/-! ## Claim C7 -/

/-- Claim C7: the Distribution Aggregator over zero records returns
every frequency table empty and award statistics all zero with count
zero; no division by zero occurs and every output key is present (the
result is a fully populated structure, not an error). -/
theorem empty_aggregate_all_zero (meta : JVal) :
    getProjectDistributions { meta := meta, results := [] } =
      some { project_ids := [], year_values := [], institute_values := [],
             activity_code_values := [], organization_values := [],
             funding_mechanism_values := [], active_status_values := [],
             award_amount_stats :=
               { total := 0, average := 0, min := 0, max := 0, count := 0 } } :=
  rfl

theorem mem_ite_singleton (c : Bool) (k key : String) :
    (k ∈ if c then [key] else ([] : List String)) ↔ (c = true ∧ k = key) := by
  cases c <;> simp

theorem critATS_keys (p : SearchParams) :
    (critATS p).map Prod.fst =
      if specKeyExpected p "advanced_text_search" then ["advanced_text_search"] else [] := by
  cases h : p.advanced_text_search <;> simp [critATS, specKeyExpected, h]

theorem critYears_keys (p : SearchParams) :
    (critYears p).map Prod.fst =
      if specKeyExpected p "fiscal_years" then ["fiscal_years"] else [] := by
  cases h : p.years with
  | none => simp [critYears, specKeyExpected, h]
  | some xs => cases xs <;> simp [critYears, specKeyExpected, h, List.isEmpty]

theorem critAgencies_keys (p : SearchParams) :
    (critAgencies p).map Prod.fst =
      if specKeyExpected p "agencies" then ["agencies"] else [] := by
  cases h : p.agencies with
  | none => simp [critAgencies, specKeyExpected, h]
  | some xs => cases xs <;> simp [critAgencies, specKeyExpected, h, List.isEmpty]

theorem critOrgs_keys (p : SearchParams) :
    (critOrgs p).map Prod.fst =
      if specKeyExpected p "org_names" then ["org_names"] else [] := by
  cases h : p.organizations with
  | none => simp [critOrgs, specKeyExpected, h]
  | some xs => cases xs <;> simp [critOrgs, specKeyExpected, h, List.isEmpty]

theorem critPI_keys (p : SearchParams) :
    (critPI p).map Prod.fst =
      if specKeyExpected p "pi_names" then ["pi_names"] else [] := by
  cases h : p.pi_name with
  | none => simp [critPI, specKeyExpected, h]
  | some n => by_cases hn : n = "" <;> simp [critPI, specKeyExpected, h, hn]

theorem critProjectNums_keys (p : SearchParams) :
    (critProjectNums p).map Prod.fst =
      if specKeyExpected p "project_nums" then ["project_nums"] else [] := by
  cases h : p.project_nums with
  | none => simp [critProjectNums, specKeyExpected, h]
  | some xs => cases xs <;> simp [critProjectNums, specKeyExpected, h, List.isEmpty]

theorem critStates_keys (p : SearchParams) :
    (critStates p).map Prod.fst =
      if specKeyExpected p "org_states" then ["org_states"] else [] := by
  cases h : p.org_states with
  | none => simp [critStates, specKeyExpected, h]
  | some xs => cases xs <;> simp [critStates, specKeyExpected, h, List.isEmpty]

theorem critOpps_keys (p : SearchParams) :
    (critOpps p).map Prod.fst =
      if specKeyExpected p "opportunity_numbers" then ["opportunity_numbers"] else [] := by
  cases h : p.opportunity_numbers with
  | none => simp [critOpps, specKeyExpected, h]
  | some xs => cases xs <;> simp [critOpps, specKeyExpected, h, List.isEmpty]

theorem critActivities_keys (p : SearchParams) :
    (critActivities p).map Prod.fst =
      if specKeyExpected p "activity_codes" then ["activity_codes"] else [] := by
  cases h : p.activity_codes with
  | none => simp [critActivities, specKeyExpected, h]
  | some xs => cases xs <;> simp [critActivities, specKeyExpected, h, List.isEmpty]

theorem critFM_keys (p : SearchParams) :
    (critFM p).map Prod.fst =
      if specKeyExpected p "funding_mechanisms" then ["funding_mechanisms"] else [] := by
  cases h : p.funding_mechanisms with
  | none => simp [critFM, specKeyExpected, h]
  | some xs => cases xs <;> simp [critFM, specKeyExpected, h, List.isEmpty]

/-! ## Claim C4 -/

/-- Claim C4: to_api_criteria emits a key exactly for each field that is
set and non-empty (an absent field, an empty list, and an empty pi name
are never emitted, neither as null nor as an empty list), and the
SearchParams with nothing set beyond the default agency filter produces
a mapping holding only the agencies key with the short code of the
default agency. -/
theorem criteria_key_omission :
    (∀ (p : SearchParams) (k : String),
        k ∈ (toApiCriteria p).map Prod.fst ↔ specKeyExpected p k = true) ∧
    toApiCriteria ({} : SearchParams) = [("agencies", jarr [jstr "NIH"])] := by
  refine ⟨?_, rfl⟩
  intro p k
  simp only [toApiCriteria, List.map_append, critATS_keys, critYears_keys,
    critAgencies_keys, critOrgs_keys, critPI_keys, critProjectNums_keys,
    critStates_keys, critOpps_keys, critActivities_keys, critFM_keys,
    List.mem_append, mem_ite_singleton]
  by_cases h1 : k = "advanced_text_search"
  · subst h1; simp [specKeyExpected]
  by_cases h2 : k = "fiscal_years"
  · subst h2; simp [specKeyExpected]
  by_cases h3 : k = "agencies"
  · subst h3; simp [specKeyExpected]
  by_cases h4 : k = "org_names"
  · subst h4; simp [specKeyExpected]
  by_cases h5 : k = "pi_names"
  · subst h5; simp [specKeyExpected]
  by_cases h6 : k = "project_nums"
  · subst h6; simp [specKeyExpected]
  by_cases h7 : k = "org_states"
  · subst h7; simp [specKeyExpected]
  by_cases h8 : k = "opportunity_numbers"
  · subst h8; simp [specKeyExpected]
  by_cases h9 : k = "activity_codes"
  · subst h9; simp [specKeyExpected]
  by_cases h10 : k = "funding_mechanisms"
  · subst h10; simp [specKeyExpected]
  simp [specKeyExpected, h1, h2, h3, h4, h5, h6, h7, h8, h9, h10]

/-! ## Claim C9 -/

/-- Claim C9: the criteria get_project_information sends upstream always
contain the agencies key with the default value NIH, because the
SearchParams built from the project identifiers alone keeps the default
agency filter; the identifiers of the caller are sent alongside it. -/
theorem get_project_information_agency_filter :
    (∀ pns : List ProjectNum,
        jlookup (getProjectInformationCriteria pns) "agencies" =
          some (jarr [jstr "NIH"])) ∧
    (∀ pns : List ProjectNum, pns ≠ [] →
        jlookup (getProjectInformationCriteria pns) "project_nums" =
          some (jarr (pns.map (fun a => jstr a.project_num)))) ∧
    (getProjectInformationParams []).agencies = some [NIHAgency.NIH] := by
  refine ⟨?_, ?_, rfl⟩
  · intro pns
    cases pns <;>
      simp [getProjectInformationCriteria, getProjectInformationParams,
        toApiCriteria, critATS, critYears, critAgencies, critOrgs, critPI,
        critProjectNums, critStates, critOpps, critActivities, critFM,
        jlookup, List.isEmpty, NIHAgency.value]
  · intro pns hne
    cases pns with
    | nil => exact absurd rfl hne
    | cons p ps =>
        simp [getProjectInformationCriteria, getProjectInformationParams,
          toApiCriteria, critATS, critYears, critAgencies, critOrgs, critPI,
          critProjectNums, critStates, critOpps, critActivities, critFM,
          jlookup, List.isEmpty]

/-- Witness for the C9 theorem: with the single validated identifier Y
the detail-fetch criteria carry both the identifier list and the
default agency filter. -/
theorem get_project_information_agency_filter_witness :
    jlookup (getProjectInformationCriteria [ProjectNum.mk "Y"]) "project_nums" =
      some (jarr [jstr "Y"]) :=
  get_project_information_agency_filter.2.1 [ProjectNum.mk "Y"] (by simp)

theorem length_filterMap_eq_length_filter {α β : Type} (f : α → Option β)
    (p : α → Bool) (h : ∀ a, (f a).isSome = p a) (l : List α) :
    (l.filterMap f).length = (l.filter p).length := by
  induction l with
  | nil => rfl
  | cons a l ih =>
      cases hf : f a with
      | none =>
          have hp : p a = false := by rw [← h a, hf]; rfl
          simp [List.filterMap_cons, List.filter_cons, hf, hp, ih]
      | some b =>
          have hp : p a = true := by rw [← h a, hf]; rfl
          simp [List.filterMap_cons, List.filter_cons, hf, hp, ih]

theorem length_filter_lt_of_mem_not {α : Type} (p : α → Bool) (l : List α)
    (x : α) (hx : x ∈ l) (hp : p x = false) :
    (l.filter p).length < l.length := by
  induction l with
  | nil => cases hx
  | cons a l ih =>
      rcases List.mem_cons.mp hx with h | h
      · subst h
        simp only [List.filter_cons, hp, ite_false, List.length_cons,
          Bool.false_eq_true]
        exact Nat.lt_succ_of_le (List.length_filter_le p l)
      · cases hpa : p a with
        | false =>
            simp only [List.filter_cons, hpa, ite_false, List.length_cons,
              Bool.false_eq_true]
            exact Nat.lt_succ_of_le (List.length_filter_le p l)
        | true =>
            simp only [List.filter_cons, hpa, ite_true, List.length_cons]
            exact Nat.succ_lt_succ (ih h)

theorem projectIdEntries_length (results : List JVal) :
    (projectIdEntries results).length = (results.filter goodRecord).length := by
  apply length_filterMap_eq_length_filter
  intro a
  cases a with
  | jobj fs =>
      cases hf : jlookup fs "project_num" with
      | none => simp [projectIdProj, goodRecord, hf]
      | some v => cases ht : truthy v <;> simp [projectIdProj, goodRecord, hf, ht]
  | jnull => rfl
  | jbool b => rfl
  | jint n => rfl
  | jstr s => rfl
  | jarr xs => rfl

/-! ## Claim C10 -/

/-- Claim C10: get_search_summary reports total_projects as the number
of accumulated records that are dicts with a truthy project_num (not as
the server-reported meta total); whenever the accumulated set holds a
record that is not a dict or lacks a truthy project_num, the reported
total is strictly below the number of records retrieved. -/
theorem search_summary_total_counts_good_records :
    (∀ (acc : Acc) (d : Distributions), getProjectDistributions acc = some d →
        d.project_ids.length = (acc.results.filter goodRecord).length) ∧
    (∀ (acc : Acc) (n : Nat), getSearchSummaryTotal acc = some n →
        (∃ r ∈ acc.results, goodRecord r = false) → n < acc.results.length) := by
  have hlen : ∀ (acc : Acc) (d : Distributions),
      getProjectDistributions acc = some d →
      d.project_ids.length = (acc.results.filter goodRecord).length := by
    intro acc d hd
    simp only [getProjectDistributions] at hd
    cases hs : awardStats (awardAmounts acc.results) with
    | none =>
        rw [hs] at hd
        exact Option.noConfusion hd
    | some stats =>
        simp only [hs, Option.some.injEq] at hd
        subst hd
        exact projectIdEntries_length acc.results
  refine ⟨hlen, ?_⟩
  intro acc n hn hbad
  simp only [getSearchSummaryTotal] at hn
  cases hd : getProjectDistributions acc with
  | none => rw [hd] at hn; cases hn
  | some d =>
      rw [hd] at hn
      simp only [Option.map_some', Option.some.injEq] at hn
      subst hn
      rw [hlen acc d hd]
      obtain ⟨r, hr, hg⟩ := hbad
      exact length_filter_lt_of_mem_not goodRecord acc.results r hr hg

/-- Witness for the C10 theorem: an accumulated set whose only record is
None reports total zero, strictly below the one record retrieved. -/
theorem search_summary_total_counts_good_records_witness : 0 < 1 :=
  search_summary_total_counts_good_records.2
    { meta := jnull, results := [jnull] } 0 rfl ⟨jnull, by simp, rfl⟩

theorem length_filter_filterMap {α β : Type} (f : α → Option β) (q : β → Bool)
    (l : List α) :
    ((l.filterMap f).filter q).length =
      (l.filter (fun a =>
        match f a with
        | some b => q b
        | none => false)).length := by
  induction l with
  | nil => rfl
  | cons a l ih =>
      cases hf : f a with
      | none => simp [List.filterMap_cons, List.filter_cons, hf, ih]
      | some b =>
          cases hq : q b <;>
            simp [List.filterMap_cons, List.filter_cons, hf, hq, ih]

/-! ## Claim C8 -/

/-- Claim C8 counterexample: a record carrying fiscal_year 0 has the
value present (it is not missing and the record does not lack it), yet
the year frequency generator excludes it entirely instead of counting
it in its own bucket. -/
theorem distribution_drops_falsy_cex :
    jlookup [("fiscal_year", jint 0)] "fiscal_year" = some (jint 0) ∧
    distValues [jobj [("fiscal_year", jint 0)]] "fiscal_year" = [] ∧
    countJ (distValues [jobj [("fiscal_year", jint 0)]] "fiscal_year")
      (jint 0) = 0 :=
  ⟨rfl, rfl, rfl⟩

/-- Claim C8 amended: each frequency table counts, for every bucket
value, exactly the dict records whose value at that dimension is truthy
and equal to it — records excluded are those missing the value, holding
None, or holding any other falsy value (zero, empty string, False, empty
list); the is_active dimension excludes only missing or None values and
maps the flag to the labels Active and Inactive; the four records with
fiscal years 2022, 2022, 2023, null yield year counts 2 for 2022 and 1
for 2023 with the null record excluded entirely. -/
theorem distribution_truthy_amended :
    (∀ (results : List JVal) (key : String) (v : JVal),
        countJ (distValues results key) v =
          (results.filter (inBucket key v)).length) ∧
    (∀ (results : List JVal) (key : String) (v : JVal),
        v ∈ distValues results key → truthy v = true) ∧
    (∀ (results : List JVal) (s : String),
        s ∈ activeLabels results → s = "Active" ∨ s = "Inactive") ∧
    (∀ results : List JVal,
        countS (activeLabels results) "Active" =
          (results.filter (activeRecord true)).length) ∧
    (∀ results : List JVal,
        countS (activeLabels results) "Inactive" =
          (results.filter (activeRecord false)).length) ∧
    distValues c8Example "fiscal_year" = [jint 2022, jint 2022, jint 2023] ∧
    countJ (distValues c8Example "fiscal_year") (jint 2022) = 2 ∧
    countJ (distValues c8Example "fiscal_year") (jint 2023) = 1 ∧
    countJ (distValues c8Example "fiscal_year") jnull = 0 := by
  refine ⟨?_, ?_, ?_, ?_, ?_, rfl, rfl, rfl, rfl⟩
  · intro results key v
    unfold countJ distValues
    rw [length_filter_filterMap]
    congr 1
    apply List.filter_congr
    intro r _
    cases r with
    | jobj fs =>
        cases hl : jlookup fs key with
        | none => simp [distProj, inBucket, hl]
        | some w =>
            cases ht : truthy w <;> simp [distProj, inBucket, hl, ht]
    | jnull => rfl
    | jbool b => rfl
    | jint n => rfl
    | jstr s => rfl
    | jarr xs => rfl
  · intro results key v hv
    unfold distValues at hv
    obtain ⟨r, _, hr⟩ := List.mem_filterMap.mp hv
    cases r with
    | jobj fs =>
        cases hl : jlookup fs key with
        | none => simp [distProj, hl] at hr
        | some w =>
            cases ht : truthy w
            · simp [distProj, hl, ht] at hr
            · simp [distProj, hl, ht] at hr
              subst hr
              exact ht
    | jnull => simp [distProj] at hr
    | jbool b => simp [distProj] at hr
    | jint n => simp [distProj] at hr
    | jstr s => simp [distProj] at hr
    | jarr xs => simp [distProj] at hr
  · intro results s hs
    unfold activeLabels at hs
    obtain ⟨r, _, hr⟩ := List.mem_filterMap.mp hs
    cases r with
    | jobj fs =>
        cases hl : jlookup fs "is_active" with
        | none => simp [activeProj, hl] at hr
        | some w =>
            cases hn : isNull w
            · simp [activeProj, hl, hn] at hr
              cases ht : truthy w
              · right; rw [← hr]; simp [ht]
              · left; rw [← hr]; simp [ht]
            · simp [activeProj, hl, hn] at hr
    | jnull => simp [activeProj] at hr
    | jbool b => simp [activeProj] at hr
    | jint n => simp [activeProj] at hr
    | jstr s => simp [activeProj] at hr
    | jarr xs => simp [activeProj] at hr
  · intro results
    unfold countS activeLabels
    rw [length_filter_filterMap]
    congr 1
    apply List.filter_congr
    intro r _
    cases r with
    | jobj fs =>
        cases hl : jlookup fs "is_active" with
        | none => simp [activeProj, activeRecord, hl]
        | some w =>
            cases hn : isNull w
            · cases ht : truthy w <;>
                simp [activeProj, activeRecord, hl, hn, ht]
            · simp [activeProj, activeRecord, hl, hn]
    | jnull => rfl
    | jbool b => rfl
    | jint n => rfl
    | jstr s => rfl
    | jarr xs => rfl
  · intro results
    unfold countS activeLabels
    rw [length_filter_filterMap]
    congr 1
    apply List.filter_congr
    intro r _
    cases r with
    | jobj fs =>
        cases hl : jlookup fs "is_active" with
        | none => simp [activeProj, activeRecord, hl]
        | some w =>
            cases hn : isNull w
            · cases ht : truthy w <;>
                simp [activeProj, activeRecord, hl, hn, ht]
            · simp [activeProj, activeRecord, hl, hn]
    | jnull => rfl
    | jbool b => rfl
    | jint n => rfl
    | jstr s => rfl
    | jarr xs => rfl

/-- Witness for the amended C8 theorem: on the four-record example the
bucket law gives count 2 for year 2022, membership in the year table
forces truthiness, and an Active label over a one-record set obeys the
is_active bucket law. -/
theorem distribution_truthy_amended_witness :
    (c8Example.filter (inBucket "fiscal_year" (jint 2022))).length = 2 ∧
    truthy (jint 2022) = true ∧
    countS (activeLabels [jobj [("is_active", jbool true)]]) "Active" = 1 := by
  refine ⟨?_, ?_, ?_⟩
  · have h := (distribution_truthy_amended.1 c8Example "fiscal_year" (jint 2022)).symm
    rw [h]
    rfl
  · apply distribution_truthy_amended.2.1 c8Example "fiscal_year" (jint 2022)
    have h : distValues c8Example "fiscal_year" =
        [jint 2022, jint 2022, jint 2023] := rfl
    rw [h]
    simp
  · rw [distribution_truthy_amended.2.2.2.1 [jobj [("is_active", jbool true)]]]
    rfl

theorem pagedQuery_ok_pageOk (up : Upstream) (limit offset : Int)
    (acc : Option Acc) (t : JVal) (a : Acc)
    (h : pagedQuery up limit offset acc = Except.ok (t, a)) :
    pageOk up limit offset := by
  unfold pagedQuery at h
  cases hu : up limit offset with
  | error e => rw [hu] at h; cases h
  | ok resp =>
      rw [hu] at h
      cases hnull : isNull resp with
      | true => simp [hnull] at h
      | false =>
          simp only [hnull, Bool.false_eq_true, if_false] at h
          cases hc : cleanJson resp with
          | none => rw [hc] at h; cases h
          | some cleaned =>
              rw [hc] at h
              dsimp only at h
              cases hm : pyIndex cleaned "meta" with
              | none => rw [hm] at h; cases h
              | some meta =>
                  rw [hm] at h
                  dsimp only at h
                  cases hmt : pyIndex meta "total" with
                  | none => rw [hmt] at h; cases h
                  | some total =>
                      exact ⟨resp, hu, hnull, cleaned, hc, meta, hm, total, hmt⟩

theorem getAllLoop_ok_pageOk (up : Upstream) (limit : Int) :
    ∀ (fuel : Nat) (total : JVal) (offset : Int) (acc : Acc)
      (issued offs : List Int) (acc' : Acc),
      getAllLoop up limit fuel total offset acc issued =
        some (Except.ok (offs, acc')) →
      (∀ o ∈ issued, pageOk up limit o) → ∀ o ∈ offs, pageOk up limit o := by
  intro fuel
  induction fuel with
  | zero =>
      intro total offset acc issued offs acc' h _
      cases h
  | succ fuel ih =>
      intro total offset acc issued offs acc' h hiss
      simp only [getAllLoop] at h
      cases hlt : pyLtInt (offset + limit) total with
      | error e => rw [hlt] at h; simp at h
      | ok b =>
          rw [hlt] at h
          cases b with
          | false =>
              simp only [Option.some.injEq, Except.ok.injEq, Prod.mk.injEq] at h
              obtain ⟨h1, h2⟩ := h
              subst h1
              exact hiss
          | true =>
              cases hp : pagedQuery up limit (offset + limit) (some acc) with
              | error e => rw [hp] at h; simp at h
              | ok pr =>
                  obtain ⟨total', acc2⟩ := pr
                  rw [hp] at h
                  refine ih total' (offset + limit) acc2
                    (issued ++ [offset + limit]) offs acc' h ?_
                  intro o ho
                  rcases List.mem_append.mp ho with h1 | h1
                  · exact hiss o h1
                  · rcases List.mem_singleton.mp h1 with rfl
                    exact pagedQuery_ok_pageOk up limit (offset + limit)
                      (some acc) total' acc2 hp

/-! ## Claim C3 -/

/-- Claim C3: a paged fetch, bounded or exhaustive, only returns a
result when every page request it issued went through completely (the
transport succeeded, the body was not None and survived clean_json, and
meta.total was present); contrapositively, a transport error, non-2xx
status, or missing meta.total on any issued page makes the whole fetch
raise, so no partial accumulated result set is ever handed back. -/
theorem fetch_failure_aborts_whole :
    (∀ (up : Upstream) (limit : Int) (t : JVal) (acc : Acc),
        getInitialResponse up limit = Except.ok (t, acc) → pageOk up limit 0) ∧
    (∀ (up : Upstream) (limit : Int) (fuel : Nat) (offs : List Int) (acc : Acc),
        getAllResponses up limit fuel = some (Except.ok (offs, acc)) →
        ∀ o ∈ offs, pageOk up limit o) := by
  constructor
  · intro up limit t acc h
    exact pagedQuery_ok_pageOk up limit 0 none t acc h
  · intro up limit fuel offs acc h
    unfold getAllResponses at h
    cases hp : pagedQuery up limit 0 none with
    | error e => rw [hp] at h; simp at h
    | ok pr =>
        obtain ⟨total, acc0⟩ := pr
        rw [hp] at h
        refine getAllLoop_ok_pageOk up limit fuel total 0 acc0 [0] offs acc h ?_
        intro o ho
        rcases List.mem_singleton.mp ho with rfl
        exact pagedQuery_ok_pageOk up limit 0 none total acc0 hp

/-- Witness for the C3 theorem: over the well-formed single-page
upstream, both the bounded and the exhaustive fetch succeed, and the
theorem yields that the one issued page (offset 0) was fully
well-formed. -/
theorem fetch_failure_aborts_whole_witness :
    pageOk c3GoodUpstream 100 0 ∧ pageOk c3GoodUpstream 500 0 :=
  ⟨fetch_failure_aborts_whole.1 c3GoodUpstream 100 (jint 0)
      { meta := jobj [("total", jint 0)], results := [] } rfl,
   fetch_failure_aborts_whole.2 c3GoodUpstream 500 10 [0]
      { meta := jobj [("total", jint 0)], results := [] } rfl 0 (by simp)⟩

/-! ## Claim C2 -/

/-- Claim C2 counterexample: over an upstream whose every page reports
total 1200 but carries zero records, the exhaustive fetch issues its
second request at offset 500 although zero records have been retrieved
(so the offset is not the number of records retrieved so far), and it
terminates with 0 retrieved records, strictly below the reported total
(so it does not terminate exactly when retrieved count reaches the
total). -/
theorem pager_offsets_cex :
    getAllResponses c2EmptyPagesUpstream 500 10 =
      some (Except.ok ([0, 500, 1000],
        { meta := jobj [("total", jint 1200)], results := [] })) ∧
    ¬((0 : Int) ≥ 1200) ∧ (500 : Int) ≠ 0 :=
  ⟨rfl, by decide, by decide⟩

theorem getAllLoop_offsets (up : Upstream) (limit : Int) :
    ∀ (fuel : Nat) (total : JVal) (offset : Int) (acc : Acc)
      (issued offs : List Int) (acc' : Acc),
      getAllLoop up limit fuel total offset acc issued =
        some (Except.ok (offs, acc')) →
      ∃ k : Nat, offs = issued ++
        (List.range k).map (fun (i : Nat) => offset + ((i : Int) + 1) * limit) := by
  intro fuel
  induction fuel with
  | zero => intro _ _ _ _ _ _ h; cases h
  | succ fuel ih =>
      intro total offset acc issued offs acc' h
      simp only [getAllLoop] at h
      cases hlt : pyLtInt (offset + limit) total with
      | error e => rw [hlt] at h; simp at h
      | ok b =>
          rw [hlt] at h
          cases b with
          | false =>
              simp only [Option.some.injEq, Except.ok.injEq, Prod.mk.injEq] at h
              obtain ⟨h1, _⟩ := h
              exact ⟨0, by simp [h1.symm]⟩
          | true =>
              cases hp : pagedQuery up limit (offset + limit) (some acc) with
              | error e => rw [hp] at h; simp at h
              | ok pr =>
                  obtain ⟨total', acc2⟩ := pr
                  rw [hp] at h
                  obtain ⟨k, hk⟩ := ih total' (offset + limit) acc2
                    (issued ++ [offset + limit]) offs acc' h
                  refine ⟨k + 1, ?_⟩
                  rw [hk, List.append_assoc]
                  congr 1
                  rw [List.range_succ_eq_map, List.map_cons, List.map_map,
                    List.singleton_append]
                  congr 1
                  · push_cast
                    ring
                  · apply List.map_congr_left
                    intro i _
                    simp only [Function.comp_apply]
                    push_cast
                    ring

set_option maxRecDepth 40000 in
/-- Claim C2 amended: the exhaustive fetch issues its requests at the
fixed-stride offsets 0, limit, 2 limit, and so on — the offset advances
by the page size each iteration (the number of records retrieved so far
only coincides with it when every page is full) and the loop stops when
offset + limit reaches the reported total; for the simulated upstream
reporting total 1200 at page size 500 with full pages, exactly 3
requests are issued at offsets 0, 500, 1000 and the accumulated length
is the sum of the three page sizes, 1200. -/
theorem pager_fixed_stride_amended :
    (∀ (up : Upstream) (limit : Int) (fuel : Nat) (offs : List Int) (acc : Acc),
        getAllResponses up limit fuel = some (Except.ok (offs, acc)) →
        ∃ n : Nat, offs = (List.range n).map (fun (i : Nat) => (i : Int) * limit)) ∧
    getAllResponses c2SimUpstream 500 10 =
      some (Except.ok ([0, 500, 1000], c2SimAcc)) ∧
    c2SimAcc.results.length =
      (simPage 0).length + (simPage 500).length + (simPage 1000).length ∧
    c2SimAcc.results.length = 1200 := by
  refine ⟨?_, rfl, rfl, rfl⟩
  intro up limit fuel offs acc h
  unfold getAllResponses at h
  cases hp : pagedQuery up limit 0 none with
  | error e => rw [hp] at h; simp at h
  | ok pr =>
      obtain ⟨total, acc0⟩ := pr
      rw [hp] at h
      obtain ⟨k, hk⟩ := getAllLoop_offsets up limit fuel total 0 acc0 [0] offs acc h
      refine ⟨k + 1, ?_⟩
      rw [hk]
      rw [List.range_succ_eq_map, List.map_cons, List.map_map,
        List.singleton_append]
      congr 1
      · push_cast
        ring
      · apply List.map_congr_left
        intro i _
        simp only [Function.comp_apply]
        push_cast
        ring

/-- Witness for the amended C2 theorem: applied to the empty-pages
upstream at page size 500 it yields the fixed-stride offsets 0, 500,
1000. -/
theorem pager_fixed_stride_amended_witness :
    ∃ n : Nat, ([0, 500, 1000] : List Int) =
      (List.range n).map (fun (i : Nat) => (i : Int) * 500) :=
  pager_fixed_stride_amended.1 c2EmptyPagesUpstream 500 10 [0, 500, 1000]
    { meta := jobj [("total", jint 1200)], results := [] } rfl

end Reporter
